import Mathlib

/-!
Verification of the password-modify extended operation (RFC 3062) of the
`ldap` package: the request encoder `PasswordModifyRequest.encode` and the
response interpretation performed by `Conn.PasswordModify`.

The generic BER packet library (`gopkg.in/asn1-ber.v1`) is an external
collaborator: packets are modelled as a recursive tree carrying a class, a
primitive/constructed flag, a tag number, a scalar value and raw content
bytes, and the two byte-level collaborator operations the code calls
(`ber.DecodePacket`, `ber.DecodeString`) are taken as parameters of the
response interpreter, so every theorem holds for an arbitrary
implementation of that narrow interface.

Helpers of the `ldap` package that the operation calls but that are not
part of the unit under verification (`GetLDAPError`, `NewError`,
`IsErrorWithCode` and the protocol constants) are modelled from the spec;
each such definition says so in its doc comment.  The result-code
classifier `GetLDAPError` is likewise a parameter: the spec only promises
"a structured error if the result code is not success, else nothing", so
theorems quantify over the classifier and condition on its outcome.
-/

set_option autoImplicit false

/-- BER class of a packet (`ber.ClassUniversal` / `ClassApplication` / `ClassContext`). -/
inductive BerClass : Type where
  | universal : BerClass
  | application : BerClass
  | context : BerClass
deriving DecidableEq, Repr

/-- BER primitive/constructed flag (`ber.TypePrimitive` / `ber.TypeConstructed`). -/
inductive BerType : Type where
  | primitive : BerType
  | constructed : BerType
deriving DecidableEq, Repr

/-- Scalar value carried by a packet (Go `interface{}` field `Value`): absent,
a string, or an integer. -/
inductive BerValue : Type where
  | nullV : BerValue
  | str : String → BerValue
  | int : Int → BerValue
deriving DecidableEq, Repr

/-- A BER packet (`ber.Packet`): class, primitive/constructed flag, tag number,
scalar value, raw content bytes (`Data`), ordered children. -/
inductive Packet : Type where
  | mk : BerClass → BerType → Nat → BerValue → List Nat → List Packet → Packet

/-- Class of a packet (`packet.ClassType`). -/
def Packet.cls : Packet → BerClass
  | .mk c _ _ _ _ _ => c

/-- Primitive/constructed flag of a packet (`packet.TagType`). -/
def Packet.typ : Packet → BerType
  | .mk _ t _ _ _ _ => t

/-- Tag number of a packet (`packet.Tag`). -/
def Packet.tag : Packet → Nat
  | .mk _ _ tg _ _ _ => tg

/-- Scalar value of a packet (`packet.Value`). -/
def Packet.value : Packet → BerValue
  | .mk _ _ _ v _ _ => v

/-- Raw content bytes of a packet (`packet.Data.Bytes()`). -/
def Packet.data : Packet → List Nat
  | .mk _ _ _ _ d _ => d

/-- Children of a packet (`packet.Children`). -/
def Packet.children : Packet → List Packet
  | .mk _ _ _ _ _ ch => ch

/-- `packet.AppendChild(child)`: the child is appended at the end of the
children list. -/
def Packet.appendChild (p : Packet) (child : Packet) : Packet :=
  match p with
  | .mk c t tg v d ch => .mk c t tg v d (ch ++ [child])

/-- Model of the byte content of a string packet: one byte per character
(`Data` of `ber.NewString`). -/
def strBytes (s : String) : List Nat :=
  s.data.map Char.toNat

/-- `ber.Encode(cls, typ, tag, nil, desc)`: a packet with no value, no data and
no children. -/
def berEncode (c : BerClass) (t : BerType) (tg : Nat) : Packet :=
  .mk c t tg .nullV [] []

/-- `ber.NewString(cls, typ, tag, s, desc)`: a packet holding the string `s` as
value, with the string's bytes as data. -/
def berNewString (c : BerClass) (t : BerType) (tg : Nat) (s : String) : Packet :=
  .mk c t tg (.str s) (strBytes s) []

/-- `ber.TagSequence`. -/
def TagSequence : Nat := 16

/-- Modelled from the spec: the application-level extended-request tag of the
protocol (`ApplicationExtendedRequest`, declared elsewhere in the package). -/
def ApplicationExtendedRequest : Nat := 23

/-- Modelled from the spec: the application-level extended-response tag of the
protocol (`ApplicationExtendedResponse`, declared elsewhere in the package). -/
def ApplicationExtendedResponse : Nat := 24

/-- Modelled from the spec: the referral result code of the protocol
(`LDAPResultReferral`, declared elsewhere in the package). -/
def LDAPResultReferral : Nat := 10

/-- Modelled from the spec: the client-side network error code
(`ErrorNetwork`, declared elsewhere in the package). -/
def ErrorNetwork : Nat := 200

/-- Modelled from the spec: the client-side unexpected-response error code
(`ErrorUnexpectedResponse`, declared elsewhere in the package). -/
def ErrorUnexpectedResponse : Nat := 205

/-- `passwordModifyOID`: the object identifier of the operation. -/
def passwordModifyOID : String := "1.3.6.1.4.1.4203.1.11.1"

/-- `PasswordModifyRequest`: three independently optional string fields;
the empty string means "absent". -/
structure PasswordModifyRequest : Type where
  UserIdentity : String
  OldPassword : String
  NewPassword : String
deriving DecidableEq, Repr

/-- `PasswordModifyResult`: the server's answer; empty string means "absent". -/
structure PasswordModifyResult : Type where
  GeneratedPassword : String
  Referral : String
deriving DecidableEq, Repr

/-- Modelled from the spec: the structured errors of the package (`Error`
values built by `NewError`, or returned by the result-code classifier
`GetLDAPError`; neither is under verification here).  `result code` is a
directory result-code error, `unexpectedResponse tag` an
"unexpected Response" error carrying the observed tag, `network msg` a
network/transport error. -/
inductive LdapError : Type where
  | result : Nat → LdapError
  | unexpectedResponse : Nat → LdapError
  | network : String → LdapError
deriving DecidableEq, Repr

/-- Modelled from the spec: `IsErrorWithCode(err, code)` — whether the
structured error carries the given result code. -/
def IsErrorWithCode (e : LdapError) (code : Nat) : Bool :=
  match e with
  | .result c => c == code
  | .unexpectedResponse _ => ErrorUnexpectedResponse == code
  | .network _ => ErrorNetwork == code

/-- `PasswordModifyRequest.encode`: builds the extended-request payload.
Mirrors the source line by line (`ber.Encode`/`AppendChild` calls); the Go
function also returns an error, which is always nil. -/
def PasswordModifyRequest.encode (r : PasswordModifyRequest) :
    Packet × Option LdapError :=
  let request := berEncode .application .constructed ApplicationExtendedRequest
  let request := request.appendChild (berNewString .context .primitive 0 passwordModifyOID)
  let extendedRequestValue := berEncode .context .primitive 1
  let passwordModifyRequestValue := berEncode .universal .constructed TagSequence
  let passwordModifyRequestValue :=
    if r.UserIdentity ≠ "" then
      passwordModifyRequestValue.appendChild (berNewString .context .primitive 0 r.UserIdentity)
    else passwordModifyRequestValue
  let passwordModifyRequestValue :=
    if r.OldPassword ≠ "" then
      passwordModifyRequestValue.appendChild (berNewString .context .primitive 1 r.OldPassword)
    else passwordModifyRequestValue
  let passwordModifyRequestValue :=
    if r.NewPassword ≠ "" then
      passwordModifyRequestValue.appendChild (berNewString .context .primitive 2 r.NewPassword)
    else passwordModifyRequestValue
  let extendedRequestValue := extendedRequestValue.appendChild passwordModifyRequestValue
  let request := request.appendChild extendedRequestValue
  (request, none)

/-- The inner universal sequence of an encoded request: first child of the
second child of the envelope. -/
def innerSequence (p : Packet) : Option Packet :=
  match p.children with
  | _ :: e :: _ =>
    match e.children with
    | s :: _ => some s
    | [] => none
  | _ => none

/-- Outcome of a `PasswordModify` call: a Go runtime panic, or a normal
return of a result pointer (`none` = nil) and an error pointer (`none` = nil). -/
inductive PMOutcome : Type where
  | panic : PMOutcome
  | ret : Option PasswordModifyResult → Option LdapError → PMOutcome
deriving DecidableEq, Repr

/-- The referral loop of `Conn.PasswordModify` (lines 132–136): for each child
of the extended response, if its tag is 3, overwrite `Referral` with
`child.Children[0].Value.(string)`.  `none` models the Go panic when the
tag-3 child has no children or its first child's value is not a string. -/
def referralScan : List Packet → PasswordModifyResult → Option PasswordModifyResult
  | [], r => some r
  | c :: rest, r =>
    if c.tag = 3 then
      match c.children with
      | first :: _ =>
        match first.value with
        | .str s => referralScan rest { r with Referral := s }
        | _ => none
      | [] => none
    else referralScan rest r

/-- The generated-password loop of `Conn.PasswordModify` (lines 145–154): for
each child of the extended response with tag 11, re-parse its raw bytes with
the collaborator `decP` (`ber.DecodePacket`); if the resulting tree has
exactly one child and that child has tag 0, overwrite `GeneratedPassword`
with the `decS` (`ber.DecodeString`) of that child's raw bytes. -/
def genPwScan (decP : List Nat → Packet) (decS : List Nat → String) :
    List Packet → PasswordModifyResult → PasswordModifyResult
  | [], r => r
  | c :: rest, r =>
    if c.tag = 11 then
      match (decP c.data).children with
      | [d] =>
        if d.tag = 0 then
          genPwScan decP decS rest { r with GeneratedPassword := decS d.data }
        else genPwScan decP decS rest r
      | _ => genPwScan decP decS rest r
    else genPwScan decP decS rest r

/-- Response interpretation of `Conn.PasswordModify` (lines 104 and 128–156),
for a received non-nil packet.  Parameters are the narrow collaborator
interfaces: `gle` is `GetLDAPError` (the result-code classifier, not under
src/), `decP` is `ber.DecodePacket`, `decS` is `ber.DecodeString`.
`packet.Children[1]` is indexed without a length check, so a packet with
fewer than two children panics. -/
def passwordModifyInterpret (gle : Packet → Option LdapError)
    (decP : List Nat → Packet) (decS : List Nat → String)
    (packet : Packet) : PMOutcome :=
  match packet.children with
  | _ :: second :: _ =>
    if second.tag = ApplicationExtendedResponse then
      match gle packet with
      | some e =>
        if IsErrorWithCode e LDAPResultReferral then
          match referralScan second.children ⟨"", ""⟩ with
          | some r => .ret (some r) (some e)
          | none => .panic
        else
          .ret (some ⟨"", ""⟩) (some e)
      | none => .ret (some (genPwScan decP decS second.children ⟨"", ""⟩)) none
    else
      .ret none (some (.unexpectedResponse second.tag))
  | _ => .panic

/-- What the connection layer hands back to `Conn.PasswordModify` before the
response is interpreted: a send failure, a closed response channel, a
`ReadPacket` failure, a nil packet, or a received packet. -/
inductive ReceiveOutcome : Type where
  | sendErr : LdapError → ReceiveOutcome
  | channelClosed : ReceiveOutcome
  | readErr : LdapError → ReceiveOutcome
  | nilPacket : ReceiveOutcome
  | got : Packet → ReceiveOutcome

/-- `Conn.PasswordModify` after a successful encode (encode never fails): the
early error returns of lines 98–119 followed by the response interpretation.
The debug-only branch of lines 121–126 is not modelled (spec non-goal); it
can only produce one more non-nil-error early return. -/
def passwordModify (gle : Packet → Option LdapError)
    (decP : List Nat → Packet) (decS : List Nat → String)
    (recv : ReceiveOutcome) : PMOutcome :=
  match recv with
  | .sendErr e => .ret none (some e)
  | .channelClosed => .ret none (some (.network "ldap: response channel closed"))
  | .readErr e => .ret none (some e)
  | .nilPacket => .ret none (some (.network "ldap: could not retrieve message"))
  | .got packet => passwordModifyInterpret gle decP decS packet

/-- The referral string one tag-3 child contributes: the string value of its
first child, `none` when the child would make the loop panic. -/
def tag3Val (c : Packet) : Option String :=
  match c.children with
  | first :: _ =>
    match first.value with
    | .str s => some s
    | _ => none
  | [] => none

/-- The generated password one tag-11 child contributes under the collaborator
pair `(decP, decS)`: `none` when the re-parsed tree does not have exactly one
child of tag 0. -/
def pwOf (decP : List Nat → Packet) (decS : List Nat → String) (c : Packet) :
    Option String :=
  match (decP c.data).children with
  | [d] => if d.tag = 0 then some (decS d.data) else none
  | _ => none

/-- Concrete collaborator instance for witnesses: a classifier that reports
success for every packet. -/
def gleSuccess : Packet → Option LdapError :=
  fun _ => none

/-- Concrete collaborator instance for witnesses: a classifier that reports
the referral result code for every packet. -/
def gleReferral : Packet → Option LdapError :=
  fun _ => some (.result LDAPResultReferral)

/-- Concrete collaborator instance for witnesses: a classifier that reports
the non-referral result code 50 (insufficient access rights) for every packet. -/
def gleFailure : Packet → Option LdapError :=
  fun _ => some (.result 50)

/-- Concrete collaborator instance for witnesses: inverse of `strBytes`,
rebuilding a string from one byte per character. -/
def bytesStr (bs : List Nat) : String :=
  String.mk (bs.map Char.ofNat)

/-- Concrete collaborator instance for witnesses: a packet parser that reads a
byte list as the content of a sequence holding a single tag-0 primitive child
whose data is the whole byte list. -/
def decPLift (bs : List Nat) : Packet :=
  .mk .universal .constructed TagSequence .nullV bs
    [.mk .context .primitive 0 .nullV bs []]

/-- A message-id packet, first top-level child of every response envelope. -/
def msgIdPacket : Packet :=
  .mk .universal .primitive 2 (.int 1) [] []

/-- Response envelope whose second top-level child is an extended response
with the given children. -/
def mkResponse (cs : List Packet) : Packet :=
  .mk .universal .constructed TagSequence .nullV []
    [msgIdPacket, .mk .application .constructed ApplicationExtendedResponse .nullV [] cs]

/-- A context tag-3 child carrying a referral URI as its first child's value. -/
def referralChild (uri : String) : Packet :=
  .mk .context .primitive 3 .nullV []
    [.mk .universal .primitive 4 (.str uri) (strBytes uri) []]

/-- A context tag-11 child carrying raw bytes to be re-parsed. -/
def valueChild (bs : List Nat) : Packet :=
  .mk .context .primitive 11 .nullV bs []

/-- The synthetic success response of the round-trip property: an envelope
whose extended response holds one tag-11 child with raw bytes `bs`. -/
def syntheticSuccessResponse (bs : List Nat) : Packet :=
  mkResponse [valueChild bs]

/-- Concrete malformed envelope with a single top-level child. -/
def shortResponse : Packet :=
  .mk .universal .constructed TagSequence .nullV [] [msgIdPacket]

/-- Concrete envelope whose second top-level child carries tag 5 instead of
the extended-response tag. -/
def wrongTagResponse : Packet :=
  .mk .universal .constructed TagSequence .nullV []
    [msgIdPacket, .mk .application .constructed 5 .nullV [] []]

/-- The result pointer of a normal return (`none` both for a panic and for a
nil result pointer). -/
def PMOutcome.resultOf : PMOutcome → Option PasswordModifyResult
  | .panic => none
  | .ret r _ => r

@[simp]
theorem Packet.cls_mk (c : BerClass) (t : BerType) (tg : Nat) (v : BerValue)
    (d : List Nat) (ch : List Packet) : (Packet.mk c t tg v d ch).cls = c := rfl

@[simp]
theorem Packet.typ_mk (c : BerClass) (t : BerType) (tg : Nat) (v : BerValue)
    (d : List Nat) (ch : List Packet) : (Packet.mk c t tg v d ch).typ = t := rfl

@[simp]
theorem Packet.tag_mk (c : BerClass) (t : BerType) (tg : Nat) (v : BerValue)
    (d : List Nat) (ch : List Packet) : (Packet.mk c t tg v d ch).tag = tg := rfl

@[simp]
theorem Packet.value_mk (c : BerClass) (t : BerType) (tg : Nat) (v : BerValue)
    (d : List Nat) (ch : List Packet) : (Packet.mk c t tg v d ch).value = v := rfl

@[simp]
theorem Packet.data_mk (c : BerClass) (t : BerType) (tg : Nat) (v : BerValue)
    (d : List Nat) (ch : List Packet) : (Packet.mk c t tg v d ch).data = d := rfl

@[simp]
theorem Packet.children_mk (c : BerClass) (t : BerType) (tg : Nat) (v : BerValue)
    (d : List Nat) (ch : List Packet) : (Packet.mk c t tg v d ch).children = ch := rfl

theorem foldl_guard_filter {α : Type} (p : Packet → Bool) (g : α → Packet → α)
    (cs : List Packet) (init : α) :
    cs.foldl (fun a c => if p c then g a c else a) init =
      (cs.filter p).foldl g init := by
  induction cs generalizing init with
  | nil => rfl
  | cons c rest ih =>
    by_cases h : p c <;> simp [List.filter_cons, h, ih]

theorem referralScan_eq (cs : List Packet) (r : PasswordModifyResult)
    (hwf : ∀ c ∈ cs, c.tag = 3 → (tag3Val c).isSome) :
    referralScan cs r =
      some ⟨r.GeneratedPassword,
        (cs.filter (fun c => c.tag == 3)).foldl
          (fun a c => (tag3Val c).getD a) r.Referral⟩ := by
  induction cs generalizing r with
  | nil => simp [referralScan]
  | cons c rest ih =>
    by_cases h : c.tag = 3
    · rcases hch : c.children with _ | ⟨first, crest⟩
      · have hc := hwf c (by simp) h
        simp [tag3Val, hch] at hc
      · rcases hv : first.value with _ | s | n
        · have hc := hwf c (by simp) h
          simp [tag3Val, hch, hv] at hc
        · have step : referralScan (c :: rest) r =
              referralScan rest { r with Referral := s } := by
            simp [referralScan, h, hch, hv]
          rw [step, ih _ (fun d hd hd3 => hwf d (by simp [hd]) hd3)]
          simp [List.filter_cons, h, tag3Val, hch, hv]
        · have hc := hwf c (by simp) h
          simp [tag3Val, hch, hv] at hc
    · have step : referralScan (c :: rest) r = referralScan rest r := by
        simp [referralScan, h]
      rw [step, ih _ (fun d hd hd3 => hwf d (by simp [hd]) hd3)]
      simp [List.filter_cons, h]

theorem genPwScan_eq (decP : List Nat → Packet) (decS : List Nat → String)
    (cs : List Packet) (r : PasswordModifyResult) :
    genPwScan decP decS cs r =
      ⟨(cs.filter (fun c => c.tag == 11)).foldl
          (fun a c => (pwOf decP decS c).getD a) r.GeneratedPassword,
        r.Referral⟩ := by
  induction cs generalizing r with
  | nil => simp [genPwScan]
  | cons c rest ih =>
    by_cases h : c.tag = 11
    · rcases hch : (decP c.data).children with _ | ⟨d, ds⟩
      · simp [genPwScan, h, hch, ih, List.filter_cons, pwOf]
      · rcases ds with _ | ⟨d2, ds2⟩
        · by_cases hd : d.tag = 0
          · simp [genPwScan, h, hch, hd, ih, List.filter_cons, pwOf]
          · simp [genPwScan, h, hch, hd, ih, List.filter_cons, pwOf]
        · simp [genPwScan, h, hch, ih, List.filter_cons, pwOf]
    · simp [genPwScan, h, ih, List.filter_cons]

/-- C1: for every `PasswordModifyRequest`, `encode` emits a context-tagged
primitive child in the inner universal sequence for a field if and only if
that field is a non-empty string, with tag 0 carrying the user identity,
tag 1 the old password and tag 2 the new password; only those three tags can
occur, and the emitted children are in strictly increasing tag order
(identity, old password, new password) whatever subset of fields is present. -/
theorem encode_optional_field_emission (r : PasswordModifyRequest) :
    ∃ seq, innerSequence (r.encode).1 = some seq ∧
      seq.cls = .universal ∧ seq.typ = .constructed ∧ seq.tag = TagSequence ∧
      (∀ c ∈ seq.children, c.cls = .context ∧ c.typ = .primitive ∧
        (c.tag = 0 ∨ c.tag = 1 ∨ c.tag = 2)) ∧
      List.Pairwise (fun a b => a.tag < b.tag) seq.children ∧
      ((∃ c ∈ seq.children, c.tag = 0) ↔ r.UserIdentity ≠ "") ∧
      ((∃ c ∈ seq.children, c.tag = 1) ↔ r.OldPassword ≠ "") ∧
      ((∃ c ∈ seq.children, c.tag = 2) ↔ r.NewPassword ≠ "") ∧
      (∀ c ∈ seq.children,
        (c.tag = 0 → c.value = .str r.UserIdentity) ∧
        (c.tag = 1 → c.value = .str r.OldPassword) ∧
        (c.tag = 2 → c.value = .str r.NewPassword)) := by
  by_cases h1 : r.UserIdentity = "" <;> by_cases h2 : r.OldPassword = "" <;>
    by_cases h3 : r.NewPassword = "" <;>
    simp [PasswordModifyRequest.encode, innerSequence, berEncode, berNewString,
      Packet.appendChild, Packet.children, Packet.cls, Packet.typ, Packet.tag,
      Packet.value, h1, h2, h3]

/-- C2: the code panics on the failing input instead of returning the
malformed-response error the spec demands: a response envelope with a single
top-level child makes `PasswordModify` index `packet.Children[1]` out of
range, for every collaborator instance. -/
theorem passwordModify_short_response_panics
    (gle : Packet → Option LdapError) (decP : List Nat → Packet)
    (decS : List Nat → String) :
    passwordModify gle decP decS (.got shortResponse) = .panic :=
  rfl

/-- C3 counterexample: on a non-referral failure (result code 50) the call
returns the error together with a non-nil empty result, not the nil result
the claim states. -/
theorem passwordModify_failure_result_not_nil :
    passwordModify gleFailure decPLift bytesStr (.got (mkResponse [])) =
      .ret (some ⟨"", ""⟩) (some (.result 50)) ∧
    (passwordModify gleFailure decPLift bytesStr (.got (mkResponse []))).resultOf ≠
      none := by
  refine ⟨rfl, ?_⟩
  decide

/-- C3 amended: for every response whose result code indicates a non-success,
non-referral failure, `PasswordModify` returns that classifier error together
with a non-nil result whose two fields are both empty strings. -/
theorem passwordModify_failure_error_with_empty_result
    (gle : Packet → Option LdapError) (decP : List Nat → Packet)
    (decS : List Nat → String) (packet a second : Packet) (rest : List Packet)
    (e : LdapError)
    (hch : packet.children = a :: second :: rest)
    (htag : second.tag = ApplicationExtendedResponse)
    (hgle : gle packet = some e)
    (href : IsErrorWithCode e LDAPResultReferral = false) :
    passwordModify gle decP decS (.got packet) =
      .ret (some ⟨"", ""⟩) (some e) := by
  simp [passwordModify, passwordModifyInterpret, hch, htag, hgle, href]

/-- C3 amended witness: the amended statement at the concrete failing
response used by the counterexample. -/
theorem passwordModify_failure_error_with_empty_result_witness :
    passwordModify gleFailure decPLift bytesStr (.got (mkResponse [])) =
      .ret (some ⟨"", ""⟩) (some (.result 50)) :=
  passwordModify_failure_error_with_empty_result gleFailure decPLift bytesStr
    (mkResponse []) msgIdPacket
    (.mk .application .constructed ApplicationExtendedResponse .nullV [] [])
    [] (.result 50) rfl rfl rfl rfl

/-- C4: for every response whose result code is the referral code and whose
extended-response node contains a (single) child with context tag 3 holding a
first child with a string value, `PasswordModify` returns the classifier
error together with a result whose `Referral` equals that string value: the
partial result is returned alongside the failure. -/
theorem passwordModify_referral_partial_result
    (gle : Packet → Option LdapError) (decP : List Nat → Packet)
    (decS : List Nat → String) (packet a second : Packet) (rest : List Packet)
    (e : LdapError) (c first : Packet) (frest : List Packet) (uri : String)
    (hch : packet.children = a :: second :: rest)
    (htag : second.tag = ApplicationExtendedResponse)
    (hgle : gle packet = some e)
    (href : IsErrorWithCode e LDAPResultReferral = true)
    (hfilter : second.children.filter (fun x => x.tag == 3) = [c])
    (hcls : c.cls = .context)
    (hfirst : c.children = first :: frest)
    (hval : first.value = .str uri) :
    passwordModify gle decP decS (.got packet) =
      .ret (some ⟨"", uri⟩) (some e) := by
  have hc3 : tag3Val c = some uri := by simp [tag3Val, hfirst, hval]
  have hwf : ∀ d ∈ second.children, d.tag = 3 → (tag3Val d).isSome := by
    intro d hd hd3
    have hmem : d ∈ second.children.filter (fun x => x.tag == 3) :=
      List.mem_filter.mpr ⟨hd, by simp [hd3]⟩
    rw [hfilter] at hmem
    simp only [List.mem_singleton] at hmem
    subst hmem
    simp [hc3]
  simp [passwordModify, passwordModifyInterpret, hch, htag, hgle, href,
    referralScan_eq _ _ hwf, hfilter, hc3]

/-- C4 witness: a concrete referral response with one tag-3 child carrying
the URI. -/
theorem passwordModify_referral_partial_result_witness :
    passwordModify gleReferral decPLift bytesStr
      (.got (mkResponse [referralChild "ldap://other/"])) =
      .ret (some ⟨"", "ldap://other/"⟩) (some (.result LDAPResultReferral)) :=
  passwordModify_referral_partial_result gleReferral decPLift bytesStr
    (mkResponse [referralChild "ldap://other/"]) msgIdPacket
    (.mk .application .constructed ApplicationExtendedResponse .nullV []
      [referralChild "ldap://other/"])
    [] (.result LDAPResultReferral) (referralChild "ldap://other/")
    (.mk .universal .primitive 4 (.str "ldap://other/") (strBytes "ldap://other/") [])
    [] "ldap://other/" rfl rfl rfl rfl rfl rfl rfl rfl

/-- C10: when the extended-response node of a referral-error response contains
more than one child tagged 3, the returned `Referral` equals the first-child
string value of the last such tag-3 child (each match overwrites the previous
one), not the first. -/
theorem passwordModify_referral_last_match_wins
    (gle : Packet → Option LdapError) (decP : List Nat → Packet)
    (decS : List Nat → String) (packet a second : Packet) (rest : List Packet)
    (e : LdapError) (l3 : List Packet) (cfirst clast : Packet)
    (uri0 uri : String)
    (hch : packet.children = a :: second :: rest)
    (htag : second.tag = ApplicationExtendedResponse)
    (hgle : gle packet = some e)
    (href : IsErrorWithCode e LDAPResultReferral = true)
    (hfilter : second.children.filter (fun x => x.tag == 3) = l3 ++ [clast])
    (hwf : ∀ d ∈ second.children, d.tag = 3 → (tag3Val d).isSome)
    (hhead : l3.head? = some cfirst)
    (hfirstval : tag3Val cfirst = some uri0)
    (hlastval : tag3Val clast = some uri)
    (hne : uri0 ≠ uri) :
    passwordModify gle decP decS (.got packet) =
      .ret (some ⟨"", uri⟩) (some e) ∧ uri ≠ uri0 := by
  refine ⟨?_, hne.symm⟩
  simp [passwordModify, passwordModifyInterpret, hch, htag, hgle, href,
    referralScan_eq _ _ hwf, hfilter, List.foldl_append, hlastval]

/-- C10 witness: a referral response with two tag-3 children carrying
different URIs; the second one wins. -/
theorem passwordModify_referral_last_match_wins_witness :
    passwordModify gleReferral decPLift bytesStr
      (.got (mkResponse [referralChild "ldap://one/", referralChild "ldap://two/"])) =
      .ret (some ⟨"", "ldap://two/"⟩) (some (.result LDAPResultReferral)) ∧
    "ldap://two/" ≠ "ldap://one/" :=
  passwordModify_referral_last_match_wins gleReferral decPLift bytesStr
    (mkResponse [referralChild "ldap://one/", referralChild "ldap://two/"]) msgIdPacket
    (.mk .application .constructed ApplicationExtendedResponse .nullV []
      [referralChild "ldap://one/", referralChild "ldap://two/"])
    [] (.result LDAPResultReferral)
    [referralChild "ldap://one/"] (referralChild "ldap://one/")
    (referralChild "ldap://two/") "ldap://one/" "ldap://two/"
    rfl rfl rfl rfl rfl (by decide) rfl rfl rfl (by decide)

/-- C5: round-trip: for every generated-password string `v`, encoding any
request yields no error, and decoding a synthetic success response whose
extended-response value embeds a tag-11 child whose raw bytes re-parse to a
tree with a single tag-0 child decoding to `v` yields no error and a result
with `GeneratedPassword = v` and `Referral = ""`. -/
theorem passwordModify_roundtrip
    (r : PasswordModifyRequest) (v : String) (gle : Packet → Option LdapError)
    (decP : List Nat → Packet) (decS : List Nat → String)
    (bs : List Nat) (d : Packet)
    (hdec : (decP bs).children = [d])
    (hd0 : d.tag = 0)
    (hv : decS d.data = v)
    (hgle : gle (syntheticSuccessResponse bs) = none) :
    (r.encode).2 = none ∧
    passwordModify gle decP decS (.got (syntheticSuccessResponse bs)) =
      .ret (some ⟨v, ""⟩) none := by
  constructor
  · rfl
  · have hch : (syntheticSuccessResponse bs).children =
        [msgIdPacket,
          Packet.mk .application .constructed ApplicationExtendedResponse .nullV []
            [valueChild bs]] := rfl
    simp [passwordModify, passwordModifyInterpret, hch, hgle, genPwScan,
      valueChild, hdec, hd0, hv, ApplicationExtendedResponse]

/-- C5 witness: the spec's example values, with the concrete collaborator
pair `decPLift`/`bytesStr`. -/
theorem passwordModify_roundtrip_witness :
    ((PasswordModifyRequest.mk "" "" "NewPass1").encode).2 = none ∧
    passwordModify gleSuccess decPLift bytesStr
      (.got (syntheticSuccessResponse (strBytes "Gener@ted1"))) =
      .ret (some ⟨"Gener@ted1", ""⟩) none := by
  have h := passwordModify_roundtrip (PasswordModifyRequest.mk "" "" "NewPass1")
    "Gener@ted1" gleSuccess decPLift bytesStr (strBytes "Gener@ted1")
    (.mk .context .primitive 0 .nullV (strBytes "Gener@ted1") [])
    rfl rfl (by decide) rfl
  exact h

/-- C6: for every response whose second top-level child does not carry the
application-level extended-response tag, `PasswordModify` returns an
unexpected-response error carrying the observed tag number, and a nil
result. -/
theorem passwordModify_unexpected_response_tag
    (gle : Packet → Option LdapError) (decP : List Nat → Packet)
    (decS : List Nat → String) (packet a second : Packet) (rest : List Packet)
    (hch : packet.children = a :: second :: rest)
    (htag : second.tag ≠ ApplicationExtendedResponse) :
    passwordModify gle decP decS (.got packet) =
      .ret none (some (.unexpectedResponse second.tag)) := by
  simp [passwordModify, passwordModifyInterpret, hch, htag]

/-- C6 witness: a concrete response whose second top-level child has tag 5. -/
theorem passwordModify_unexpected_response_tag_witness :
    passwordModify gleSuccess decPLift bytesStr (.got wrongTagResponse) =
      .ret none (some (.unexpectedResponse 5)) :=
  passwordModify_unexpected_response_tag gleSuccess decPLift bytesStr
    wrongTagResponse msgIdPacket (.mk .application .constructed 5 .nullV [] [])
    [] rfl (by decide)

/-- C7: for every response with a success result code whose extended-response
node has no child tagged 11, `PasswordModify` returns no error and a result
whose `GeneratedPassword` is the empty string. -/
theorem passwordModify_success_without_value
    (gle : Packet → Option LdapError) (decP : List Nat → Packet)
    (decS : List Nat → String) (packet a second : Packet) (rest : List Packet)
    (hch : packet.children = a :: second :: rest)
    (htag : second.tag = ApplicationExtendedResponse)
    (hgle : gle packet = none)
    (h11 : ∀ c ∈ second.children, c.tag ≠ 11) :
    passwordModify gle decP decS (.got packet) =
      .ret (some ⟨"", ""⟩) none := by
  have hfilter : second.children.filter (fun c => c.tag == 11) = [] := by
    rw [List.filter_eq_nil_iff]
    intro c hc
    simp [h11 c hc]
  simp [passwordModify, passwordModifyInterpret, hch, htag, hgle,
    genPwScan_eq, hfilter]

/-- C7 witness: a concrete success response carrying only a result-code
child (tag 10 ≠ 11). -/
theorem passwordModify_success_without_value_witness :
    passwordModify gleSuccess decPLift bytesStr
      (.got (mkResponse [.mk .universal .primitive 10 (.int 0) [] []])) =
      .ret (some ⟨"", ""⟩) none :=
  passwordModify_success_without_value gleSuccess decPLift bytesStr
    (mkResponse [.mk .universal .primitive 10 (.int 0) [] []]) msgIdPacket
    (.mk .application .constructed ApplicationExtendedResponse .nullV []
      [.mk .universal .primitive 10 (.int 0) [] []])
    [] rfl rfl rfl (by decide)

/-- C8: for every response with a success result code carrying a (single)
tag-11 child, the child's raw bytes are re-parsed with the collaborator
parser; `GeneratedPassword` is set from the decode of the single tag-0
child's bytes when the re-parsed tree has exactly one child and that child
is tagged 0, and any other inner shape (zero children, several children, or
a single child with a different tag) yields an empty `GeneratedPassword`
and no error. -/
theorem passwordModify_success_value_shape
    (gle : Packet → Option LdapError) (decP : List Nat → Packet)
    (decS : List Nat → String) (packet a second : Packet) (rest : List Packet)
    (c : Packet)
    (hch : packet.children = a :: second :: rest)
    (htag : second.tag = ApplicationExtendedResponse)
    (hgle : gle packet = none)
    (hfilter : second.children.filter (fun x => x.tag == 11) = [c]) :
    (∀ d, (decP c.data).children = [d] → d.tag = 0 →
      passwordModify gle decP decS (.got packet) =
        .ret (some ⟨decS d.data, ""⟩) none) ∧
    ((∀ d, (decP c.data).children = [d] → d.tag ≠ 0) →
      passwordModify gle decP decS (.got packet) =
        .ret (some ⟨"", ""⟩) none) := by
  constructor
  · intro d hdec hd0
    have hpw : pwOf decP decS c = some (decS d.data) := by
      simp [pwOf, hdec, hd0]
    simp [passwordModify, passwordModifyInterpret, hch, htag, hgle,
      genPwScan_eq, hfilter, hpw]
  · intro hshape
    have hpw : pwOf decP decS c = none := by
      unfold pwOf
      rcases hdec : (decP c.data).children with _ | ⟨d, ds⟩
      · rfl
      · rcases ds with _ | ⟨d2, ds2⟩
        · simp [hshape d hdec]
        · rfl
    simp [passwordModify, passwordModifyInterpret, hch, htag, hgle,
      genPwScan_eq, hfilter, hpw]

/-- C8 witness: a success response with one tag-11 child whose bytes
re-parse (under `decPLift`) to a tree with a single tag-0 child. -/
theorem passwordModify_success_value_shape_witness :
    passwordModify gleSuccess decPLift bytesStr
      (.got (mkResponse [valueChild (strBytes "S3cret")])) =
      .ret (some ⟨"S3cret", ""⟩) none := by
  have h := (passwordModify_success_value_shape gleSuccess decPLift bytesStr
      (mkResponse [valueChild (strBytes "S3cret")]) msgIdPacket
      (.mk .application .constructed ApplicationExtendedResponse .nullV []
        [valueChild (strBytes "S3cret")])
      [] (valueChild (strBytes "S3cret")) rfl rfl rfl rfl).1
      (.mk .context .primitive 0 .nullV (strBytes "S3cret") []) rfl rfl
  rw [h]
  decide

/-- C9: invariant of the success path: whenever `PasswordModify` returns with
a nil error, the returned result pointer is non-nil and its `Referral` field
is the empty string — `Referral` is only assigned inside the referral-error
branch, so no success outcome carries a referral. -/
theorem passwordModify_nil_error_empty_referral
    (gle : Packet → Option LdapError) (decP : List Nat → Packet)
    (decS : List Nat → String) (recv : ReceiveOutcome)
    (ro : Option PasswordModifyResult)
    (h : passwordModify gle decP decS recv = .ret ro none) :
    ∃ res, ro = some res ∧ res.Referral = "" := by
  cases recv with
  | sendErr e => simp [passwordModify] at h
  | channelClosed => simp [passwordModify] at h
  | readErr e => simp [passwordModify] at h
  | nilPacket => simp [passwordModify] at h
  | got packet =>
    simp only [passwordModify] at h
    unfold passwordModifyInterpret at h
    rcases hch : packet.children with _ | ⟨a, _ | ⟨second, rest⟩⟩ <;> rw [hch] at h
    · simp at h
    · simp at h
    · by_cases htag : second.tag = ApplicationExtendedResponse
      · rcases hgle : gle packet with _ | e
        · simp [hgle, htag] at h
          exact ⟨genPwScan decP decS second.children ⟨"", ""⟩, h.symm,
            by simp [genPwScan_eq]⟩
        · by_cases href : IsErrorWithCode e LDAPResultReferral
          · rcases hscan : referralScan second.children ⟨"", ""⟩ with _ | rr
            · simp [hgle, htag, href, hscan] at h
            · simp [hgle, htag, href, hscan] at h
          · simp [hgle, htag, href] at h
      · simp [htag] at h

/-- C9 witness: a concrete success return with nil error; the invariant
instantiates to it. -/
theorem passwordModify_nil_error_empty_referral_witness :
    ∃ res, (some (PasswordModifyResult.mk "" "")) = some res ∧
      res.Referral = "" :=
  passwordModify_nil_error_empty_referral gleSuccess decPLift bytesStr
    (.got (mkResponse [])) (some ⟨"", ""⟩) rfl
